import Mathlib

deriving instance DecidableEq for Except

/-!
Shallow embedding of the giftly-app reservation/contribution engine.

Sources embedded:
- `src/server/src/services/ItemService.ts` (reserveItem, unreserveItem,
  createItem, deleteItem, hypeItem)
- `src/server/src/routes/contributions.ts` (contribution transaction)
- `src/server/src/routes/wishlists.ts` (GET /:id spoiler protection)
- `src/unnamed/part_006` (item routes: reserve/unreserve endpoints and
  their error-to-status mapping)
- `src/unnamed/part_007` (socket.io presence handlers and emit semantics)

Database state is a record of Prisma rows; each service call is a function
from state to (post-call state, outcome).  Monetary amounts (`Prisma.Decimal`
columns, JS numbers at the API boundary) are embedded as `Int`.
-/

namespace Giftly

/-- A `Wishlist` row (fields used by the engine). -/
structure Wishlist where
  id : String
  ownerId : String
  isPublic : Bool
deriving DecidableEq, Repr

/-- An `Item` row (fields used by the engine). -/
structure Item where
  id : String
  wishlistId : String
  title : String
  url : Option String
  imageUrl : Option String
  price : Option Int
  currency : String
  story : Option String
  isReserved : Bool
  reservedBy : Option String
  collectedAmount : Int
  hypeCount : Nat
deriving DecidableEq, Repr

/-- A `Contribution` row.  `id` is the database-generated key, embedded
as a `Nat` handed to the operation by the caller (freshness is irrelevant
to the claims). -/
structure Contribution where
  id : Nat
  itemId : String
  userId : Option String
  contributorName : String
  amount : Int
  message : Option String
deriving DecidableEq, Repr

/-- The persistent store: the three tables the engine touches. -/
structure DB where
  wishlists : List Wishlist
  items : List Item
  contributions : List Contribution
deriving DecidableEq, Repr

/-- `req.user` as set by the auth middleware (`src/unnamed/part_004`):
`{ id, email }`, or absent for guests. -/
structure UserPayload where
  id : String
  email : String
deriving DecidableEq, Repr

/-- The distinct error outcomes thrown by the embedded routes/services,
one constructor per distinct `Error` message in the source. -/
inductive SvcError where
  /-- `'Item not found'` -/
  | itemNotFound
  /-- `'Cannot reserve your own items'` -/
  | cannotReserveOwn
  /-- `'Item is already reserved'` -/
  | alreadyReserved
  /-- `'Only the person who reserved can unreserve'` (thrown both for a
  missing requester identity and for a failed conditional update) -/
  | onlyReserverCanUnreserve
  /-- `'Cannot contribute to your own items'` -/
  | cannotContributeOwn
  /-- `'Item is already reserved/fully funded'` -/
  | alreadyReservedFunded
  /-- `'Please provide a nickname'` -/
  | provideNickname
  /-- `'Not authorized to add to this wishlist'` -/
  | notAuthorizedToAdd
  /-- zod schema rejection (e.g. non-positive `amount`) -/
  | validationFailed
deriving DecidableEq, Repr

/-- `prisma.item.findUnique({ where: { id } })`. -/
def findItem (db : DB) (itemId : String) : Option Item :=
  db.items.find? (fun i => i.id == itemId)

/-- `prisma.wishlist.findUnique({ where: { id } })`. -/
def findWishlist (db : DB) (wid : String) : Option Wishlist :=
  db.wishlists.find? (fun w => w.id == wid)

/-- `prisma.item.updateMany({ where: p, data: f })`: rewrite every row
matching `p` through `f`. -/
def updateManyItems (items : List Item) (p : Item → Bool) (f : Item → Item) : List Item :=
  items.map (fun i => if p i then f i else i)

/-- The `count` field of an `updateMany` result: how many rows matched. -/
def matchCount (items : List Item) (p : Item → Bool) : Nat :=
  (items.filter p).length

/-- The `where` clause of the conditional reserve update
(`ItemService.reserveItem`): `{ id: itemId, isReserved: false }`. -/
def reservePred (itemId : String) (i : Item) : Bool :=
  i.id == itemId && i.isReserved == false

/-- The `data` written by the reserve update:
`{ isReserved: true, reservedBy: reserverIdentifier }`. -/
def reserveWrite (reserverIdentifier : String) (i : Item) : Item :=
  { i with isReserved := true, reservedBy := some reserverIdentifier }

/-- `ItemService.reserveItem(itemId, reserverIdentifier, reserverId)`.
Returns the post-call store together with the outcome (the errors are the
`throw`n messages).  The second `findUnique` branch returning
`itemNotFound` after a successful update mirrors the source's defensive
re-check; the `findWishlist` miss cannot occur under referential integrity
(Prisma `include: { wishlist: true }` on a required relation). -/
def reserveItemRun (db : DB) (itemId reserverIdentifier : String)
    (reserverId : Option String) : DB × Except SvcError Item :=
  match findItem db itemId with
  | none => (db, .error .itemNotFound)
  | some item =>
    match findWishlist db item.wishlistId with
    | none => (db, .error .itemNotFound)
    | some wl =>
      if reserverId = some wl.ownerId then (db, .error .cannotReserveOwn)
      else
        let count := matchCount db.items (reservePred itemId)
        let items' :=
          updateManyItems db.items (reservePred itemId) (reserveWrite reserverIdentifier)
        let db' : DB := { db with items := items' }
        if count = 0 then (db', .error .alreadyReserved)
        else
          match findItem db' itemId with
          | none => (db', .error .itemNotFound)
          | some updated => (db', .ok updated)

/-- HTTP status produced by `POST /:id/reserve` (`src/unnamed/part_006`)
for each service error: `'Item not found'` ↦ 404,
`'Cannot reserve your own items'` ↦ 403, everything else ↦ 400. -/
def reserveRouteStatus : SvcError → Nat
  | .itemNotFound => 404
  | .cannotReserveOwn => 403
  | _ => 400

/-- The `where` clause of the conditional unreserve update
(`ItemService.unreserveItem`):
`{ id, reservedBy: requesterIdentifier, isReserved: true }`. -/
def unreservePred (itemId requester : String) (i : Item) : Bool :=
  i.id == itemId && (i.reservedBy == some requester && i.isReserved == true)

/-- The `data` written by the unreserve update:
`{ isReserved: false, reservedBy: null }`. -/
def unreserveWrite (i : Item) : Item :=
  { i with isReserved := false, reservedBy := none }

/-- `ItemService.unreserveItem(itemId, requesterIdentifier)`.  The
requester identity is `req.user?.email || nickname` at the route, so it
may be absent; the source's `if (!requesterIdentifier)` treats both
`undefined` and the empty string as missing. -/
def unreserveItemRun (db : DB) (itemId : String)
    (requesterIdentifier : Option String) : DB × Except SvcError Item :=
  match findItem db itemId with
  | none => (db, .error .itemNotFound)
  | some _item =>
    match requesterIdentifier with
    | none => (db, .error .onlyReserverCanUnreserve)
    | some requester =>
      if requester = "" then (db, .error .onlyReserverCanUnreserve)
      else
        let count := matchCount db.items (unreservePred itemId requester)
        let items' :=
          updateManyItems db.items (unreservePred itemId requester) unreserveWrite
        let db' : DB := { db with items := items' }
        if count = 0 then (db', .error .onlyReserverCanUnreserve)
        else
          match findItem db' itemId with
          | none => (db', .error .itemNotFound)
          | some updated => (db', .ok updated)

/-- HTTP status produced by `POST /:id/unreserve` (`src/unnamed/part_006`):
`'Item not found'` ↦ 404, a message containing `'Only the person'` ↦ 403,
everything else ↦ 500. -/
def unreserveRouteStatus : SvcError → Nat
  | .itemNotFound => 404
  | .onlyReserverCanUnreserve => 403
  | _ => 500

/-- `ItemService.hypeItem(itemId)`: `prisma.item.update` with
`hypeCount: { increment: 1 }`; a missing row makes Prisma throw, caught
by the route as a failure. -/
def hypeItemRun (db : DB) (itemId : String) : DB × Except SvcError Item :=
  match findItem db itemId with
  | none => (db, .error .itemNotFound)
  | some _item =>
    let items' :=
      updateManyItems db.items (fun i => i.id == itemId)
        (fun i => { i with hypeCount := i.hypeCount + 1 })
    let db' : DB := { db with items := items' }
    match findItem db' itemId with
    | none => (db', .error .itemNotFound)
    | some updated => (db', .ok updated)

/-- The create-item request body (`CreateItemDTO` in `ItemService.ts`). -/
structure CreateItemDTO where
  wishlistId : String
  title : String
  url : Option String
  imageUrl : Option String
  price : Option Int
  currency : Option String
  story : Option String
deriving DecidableEq, Repr

/-- The row built by `prisma.item.create` in `ItemService.createItem`.
Modelled from the spec: the Prisma schema file is not under `src/`, so the
defaults of the reservation/funding columns come from spec §3/§4.1 — a new
item starts `Unreserved` (`isReserved=false`, `reservedBy=null`) with
`collectedAmount=0` and `hypeCount=0`.  The explicit fields mirror the
source: `price` goes through JS truthiness (`data.price ? Number(data.price)
: undefined`, so a zero price is stored as null) and `currency` defaults to
`'USD'`. -/
def newItem (freshId : String) (dto : CreateItemDTO) : Item :=
  { id := freshId
    wishlistId := dto.wishlistId
    title := dto.title
    url := dto.url
    imageUrl := dto.imageUrl
    price := match dto.price with
      | some p => if p = 0 then none else some p
      | none => none
    currency := match dto.currency with
      | some c => if c = "" then "USD" else c
      | none => "USD"
    story := dto.story
    isReserved := false
    reservedBy := none
    collectedAmount := 0
    hypeCount := 0 }

/-- `ItemService.createItem(userId, data)`: ownership check then insert. -/
def createItemRun (db : DB) (userId : String) (dto : CreateItemDTO)
    (freshId : String) : DB × Except SvcError Item :=
  match findWishlist db dto.wishlistId with
  | none => (db, .error .notAuthorizedToAdd)
  | some wl =>
    if wl.ownerId ≠ userId then (db, .error .notAuthorizedToAdd)
    else
      let item := newItem freshId dto
      ({ db with items := db.items ++ [item] }, .ok item)

/-- JS `a || b` on optional strings: the empty string is falsy. -/
def jsOrStr : Option String → Option String → Option String
  | some s, b => if s = "" then b else some s
  | none, b => b

/-- The body of `POST /api/contributions` after zod parsing
(`contributions.ts`). -/
structure ContributionInput where
  itemId : String
  amount : Int
  message : Option String
  nickname : Option String
deriving DecidableEq, Repr

/-- The value returned from the contribution transaction. -/
structure ContributionResult where
  contribution : Contribution
  wishlistId : String
  itemId : String
  newCollected : Int
  isFullyFunded : Bool
deriving DecidableEq, Repr

/-- The `prisma.$transaction` callback in `POST /api/contributions`
(`contributions.ts` lines 31–88), executed sequentially: lookup and guards,
append the `Contribution` row, increment `collectedAmount`, then the
funding transition `isReserved=true, reservedBy='Group contribution'`
guarded by `isFullyFunded && !updatedItem.isReserved`. -/
def contributeBody (db : DB) (user : Option UserPayload) (data : ContributionInput)
    (contributorName : String) (freshId : Nat) :
    Except SvcError (DB × ContributionResult) :=
  match findItem db data.itemId with
  | none => .error .itemNotFound
  | some item =>
    match findWishlist db item.wishlistId with
    | none => .error .itemNotFound
    | some wl =>
      if user.map (fun u => u.id) = some wl.ownerId then .error .cannotContributeOwn
      else if item.isReserved then .error .alreadyReservedFunded
      else
        let contribution : Contribution :=
          { id := freshId
            itemId := data.itemId
            userId := user.map (fun u => u.id)
            contributorName := contributorName
            amount := data.amount
            message := data.message }
        let db1 : DB := { db with contributions := db.contributions ++ [contribution] }
        let items2 :=
          updateManyItems db1.items (fun i => i.id == item.id)
            (fun i => { i with collectedAmount := i.collectedAmount + data.amount })
        let db2 : DB := { db1 with items := items2 }
        match findItem db2 item.id with
        | none => .error .itemNotFound
        | some updatedItem =>
          let newCollected := updatedItem.collectedAmount
          let isFullyFunded : Bool :=
            match updatedItem.price with
            | some p => decide (p ≤ newCollected)
            | none => false
          let items3 :=
            updateManyItems db2.items (fun i => i.id == item.id)
              (fun i => { i with isReserved := true,
                                 reservedBy := some "Group contribution" })
          let db3 : DB :=
            if isFullyFunded && !updatedItem.isReserved then { db2 with items := items3 }
            else db2
          .ok (db3, { contribution := contribution
                      wishlistId := item.wishlistId
                      itemId := item.id
                      newCollected := newCollected
                      isFullyFunded := isFullyFunded })

/-- The whole `POST /api/contributions` handler: zod validation
(`amount` must be positive), contributor-identity resolution
(`req.user?.email || data.nickname`, rejected when falsy), then the
transaction; a throw inside `prisma.$transaction` rolls the store back. -/
def contributeRun (db : DB) (user : Option UserPayload) (data : ContributionInput)
    (freshId : Nat) : DB × Except SvcError ContributionResult :=
  if data.amount ≤ 0 then (db, .error .validationFailed)
  else
    match jsOrStr (user.map (fun u => u.email)) data.nickname with
    | none => (db, .error .provideNickname)
    | some name =>
      if name = "" then (db, .error .provideNickname)
      else
        match contributeBody db user data name freshId with
        | .ok (db', r) => (db', .ok r)
        | .error e => (db, .error e)

/-- HTTP status produced by the contribution route's error mapping
(`contributions.ts` lines 103–116). -/
def contributionRouteStatus : SvcError → Nat
  | .itemNotFound => 404
  | .cannotContributeOwn => 403
  | _ => 400

/-- The funding test performed after the increment
(`updatedItem.price ? newCollected >= Number(updatedItem.price) : false`),
expressed on the pre-call item. -/
def fundedFlag (item : Item) (amount : Int) : Bool :=
  match item.price with
  | some p => decide (p ≤ item.collectedAmount + amount)
  | none => false

/-- The contribution row created for a successful call. -/
def newContribution (user : Option UserPayload) (data : ContributionInput)
    (name : String) (fid : Nat) : Contribution :=
  { id := fid
    itemId := data.itemId
    userId := user.map (fun u => u.id)
    contributorName := name
    amount := data.amount
    message := data.message }

/-- The net effect of a successful contribution on the item row:
the increment, then the funding transition when the threshold is met. -/
def contributedItem (item : Item) (amount : Int) : Item :=
  let bumped := { item with collectedAmount := item.collectedAmount + amount }
  if fundedFlag item amount then
    { bumped with isReserved := true, reservedBy := some "Group contribution" }
  else bumped

/-- The projection of a `Contribution` row selected by `GET /wishlists/:id`
(`wishlists.ts` lines 71–80): `userId` is deliberately not exposed.
`createdAt` is not modelled (no clock in the embedding). -/
structure ContributionView where
  id : Nat
  amount : Int
  contributorName : String
  message : Option String
deriving DecidableEq, Repr

/-- Build the outgoing contribution representation. -/
def contributionView (c : Contribution) : ContributionView :=
  { id := c.id
    amount := c.amount
    contributorName := c.contributorName
    message := c.message }

/-- An item as serialized by `GET /wishlists/:id`, with its included
contribution list. -/
structure ItemView where
  id : String
  wishlistId : String
  title : String
  price : Option Int
  isReserved : Bool
  reservedBy : Option String
  collectedAmount : Int
  hypeCount : Nat
  contributions : List ContributionView
deriving DecidableEq, Repr

/-- The outgoing representation of a stored item, before any spoiler
filtering (Prisma `include: { contributions: { select: ... } }`). -/
def itemView (db : DB) (i : Item) : ItemView :=
  { id := i.id
    wishlistId := i.wishlistId
    title := i.title
    price := i.price
    isReserved := i.isReserved
    reservedBy := i.reservedBy
    collectedAmount := i.collectedAmount
    hypeCount := i.hypeCount
    contributions := (db.contributions.filter (fun c => c.itemId == i.id)).map contributionView }

/-- The owner-view mutation applied per item in `GET /wishlists/:id`
(`wishlists.ts` lines 97–105): hide reservation status, holder,
contributions and collected amount. -/
def spoilerFilter (it : ItemView) : ItemView :=
  { it with isReserved := false
            reservedBy := none
            contributions := []
            collectedAmount := 0 }

/-- The response body of `GET /wishlists/:id`. -/
structure WishlistView where
  wishlist : Wishlist
  items : List ItemView
  isOwner : Bool
deriving DecidableEq, Repr

/-- Errors of `GET /wishlists/:id`: the 404 `AppError`. -/
inductive WishlistRouteError where
  | wishlistNotFound
deriving DecidableEq, Repr

/-- `GET /wishlists/:id` (`wishlists.ts` lines 62–116): fetch the wishlist
with its items, 404 when absent or private-and-not-owner, apply the
spoiler transform exactly when `req.user?.id === wishlist.ownerId`. -/
def getWishlistRun (db : DB) (user : Option UserPayload) (wid : String) :
    Except WishlistRouteError WishlistView :=
  match findWishlist db wid with
  | none => .error .wishlistNotFound
  | some wl =>
    let isOwner : Bool := user.map (fun u => u.id) == some wl.ownerId
    let baseItems := (db.items.filter (fun i => i.wishlistId == wid)).map (itemView db)
    if !wl.isPublic && !isOwner then .error .wishlistNotFound
    else if isOwner then
      .ok { wishlist := wl, items := baseItems.map spoilerFilter, isOwner := true }
    else
      .ok { wishlist := wl, items := baseItems, isOwner := false }

/-- A connected socket, identified by its handle. -/
abbrev SessionId := Nat

/-- The socket.io server state: connected sockets and the room adapter
(`io.sockets.adapter.rooms`); socket.io removes a room once empty. -/
structure IoState where
  connected : List SessionId
  rooms : List (String × List SessionId)
deriving DecidableEq, Repr

/-- `io.sockets.adapter.rooms.get(room)` flattened to a member list
(`[]` when the room is absent). -/
def roomMembers (st : IoState) (room : String) : List SessionId :=
  match st.rooms.find? (fun r => r.fst == room) with
  | some r => r.snd
  | none => []

/-- The domain events the server emits (spec §3's tagged union, with the
payload fields each emit site sends). -/
inductive DomainEvent where
  | itemAdded (wishlistId itemId : String)
  | itemDeleted (wishlistId itemId : String)
  | itemReserved (wishlistId itemId reservedBy : String)
  | itemUnreserved (wishlistId itemId : String)
  | contributionAdded (wishlistId itemId : String) (newCollected : Int) (isFullyFunded : Bool)
  | hypeIncremented (itemId : String) (hypeCount : Nat)
deriving DecidableEq, Repr

/-- `io.emit(...)`: deliver to every connected socket, process-wide. -/
def emitAll (st : IoState) (ev : DomainEvent) : List (SessionId × DomainEvent) :=
  st.connected.map (fun s => (s, ev))

/-- `io.to(room).emit(...)`: deliver to the sockets in `room` only. -/
def emitToRoom (st : IoState) (room : String) (ev : DomainEvent) :
    List (SessionId × DomainEvent) :=
  (roomMembers st room).map (fun s => (s, ev))

/-- The emit in `ItemService.createItem`: `io.emit`. -/
def itemAddedPublish (st : IoState) (wid itemId : String) :
    List (SessionId × DomainEvent) :=
  emitAll st (.itemAdded wid itemId)

/-- The emit in `ItemService.deleteItem`: `io.emit`. -/
def itemDeletedPublish (st : IoState) (wid itemId : String) :
    List (SessionId × DomainEvent) :=
  emitAll st (.itemDeleted wid itemId)

/-- The emit in `ItemService.reserveItem` (lines 80–88): `io.emit`,
i.e. a process-wide broadcast, not room-scoped. -/
def reservePublish (st : IoState) (wid itemId reservedBy : String) :
    List (SessionId × DomainEvent) :=
  emitAll st (.itemReserved wid itemId reservedBy)

/-- The emit in `ItemService.unreserveItem`: `io.emit`. -/
def unreservePublish (st : IoState) (wid itemId : String) :
    List (SessionId × DomainEvent) :=
  emitAll st (.itemUnreserved wid itemId)

/-- The emit in `POST /api/contributions` (lines 91–100):
`io.to('wishlist:' + wid).emit(...)`, room-scoped. -/
def contributionPublish (st : IoState) (wid itemId : String)
    (newCollected : Int) (isFullyFunded : Bool) : List (SessionId × DomainEvent) :=
  emitToRoom st ("wishlist:" ++ wid) (.contributionAdded wid itemId newCollected isFullyFunded)

/-- The emit in `ItemService.hypeItem`:
`io.to('wishlist:' + wid).emit('hype', ...)`, room-scoped. -/
def hypePublish (st : IoState) (wid itemId : String) (hypeCount : Nat) :
    List (SessionId × DomainEvent) :=
  emitToRoom st ("wishlist:" ++ wid) (.hypeIncremented itemId hypeCount)

/-- `socket.join(room)`: room membership is a set — joining twice is a
no-op; a missing room is created. -/
def addToRoom (st : IoState) (room : String) (sid : SessionId) : IoState :=
  if (roomMembers st room).contains sid then st
  else
    match st.rooms.find? (fun r => r.fst == room) with
    | some _ =>
      let rooms' := st.rooms.map (fun r => if r.fst == room then (r.fst, r.snd ++ [sid]) else r)
      { st with rooms := rooms' }
    | none => { st with rooms := st.rooms ++ [(room, [sid])] }

/-- `socket.leave(room)`: remove the socket; socket.io deletes a room
that becomes empty. -/
def removeFromRoom (st : IoState) (room : String) (sid : SessionId) : IoState :=
  let cleared :=
    st.rooms.map (fun r => if r.fst == room then (r.fst, r.snd.filter (fun s => s != sid)) else r)
  { st with rooms := cleared.filter (fun r => !r.snd.isEmpty) }

/-- The `join_wishlist` handler (`src/unnamed/part_007` lines 211–218):
join the room, then emit `room ? room.size : 1` to that room. -/
def joinWishlistRun (st : IoState) (sid : SessionId) (wid : String) : IoState × Int :=
  let st' := addToRoom st ("wishlist:" ++ wid) sid
  let count : Int :=
    match st'.rooms.find? (fun r => r.fst == "wishlist:" ++ wid) with
    | some r => (r.snd.length : Int)
    | none => 1
  (st', count)

/-- The `leave_wishlist` handler (lines 221–228): leave the room, then
emit `room ? room.size : 0` to that room. -/
def leaveWishlistRun (st : IoState) (sid : SessionId) (wid : String) : IoState × Int :=
  let st' := removeFromRoom st ("wishlist:" ++ wid) sid
  let count : Int :=
    match st'.rooms.find? (fun r => r.fst == "wishlist:" ++ wid) with
    | some r => (r.snd.length : Int)
    | none => 0
  (st', count)

/-- `room.startsWith('wishlist:')`, modelled executably as a character-list
prefix test (behaviourally identical to `String.startsWith`). -/
def strStartsWith (s pfx : String) : Bool :=
  pfx.data.isPrefixOf s.data

/-- The counts emitted by the `disconnecting` handler (lines 231–242):
for every `wishlist:`-prefixed room the socket is still in, emit
`roomSet.size - 1` (the disconnecting socket is still a member at this
point, hence the subtraction). -/
def disconnectingCounts (st : IoState) (sid : SessionId) : List (String × Int) :=
  (st.rooms.filter
      (fun r => r.snd.contains sid && strStartsWith r.fst "wishlist:")).map
    (fun r => (r.fst, (r.snd.length : Int) - 1))

/-- Full disconnect: the emitted counts, then socket.io removes the
socket from every room (dropping rooms that become empty) and from the
connected set. -/
def disconnectRun (st : IoState) (sid : SessionId) : IoState × List (String × Int) :=
  let counts := disconnectingCounts st sid
  let st' : IoState :=
    { connected := st.connected.filter (fun s => s != sid)
      rooms := (st.rooms.map (fun r => (r.fst, r.snd.filter (fun s => s != sid)))).filter
          (fun r => !r.snd.isEmpty) }
  (st', counts)

/-- Spec §3's reservation invariant on one row: `reservedBy` is set iff
`isReserved`. -/
def itemInvariant (i : Item) : Prop :=
  i.isReserved = true ↔ i.reservedBy ≠ none

instance (i : Item) : Decidable (itemInvariant i) := by
  unfold itemInvariant; infer_instance

/-- The reservation invariant over the whole store. -/
def dbInvariant (db : DB) : Prop :=
  ∀ i ∈ db.items, itemInvariant i

instance (db : DB) : Decidable (dbInvariant db) := by
  unfold dbInvariant; infer_instance

/-! ### Concrete states used by witnesses and counterexamples -/

/-- A public wishlist owned by `owner1`. -/
def wlA : Wishlist := { id := "w1", ownerId := "owner1", isPublic := true }

/-- An unreserved item with a price of 50 on `w1`. -/
def itemA : Item :=
  { id := "i1", wishlistId := "w1", title := "Lego set", url := none, imageUrl := none,
    price := some 50, currency := "USD", story := none,
    isReserved := false, reservedBy := none, collectedAmount := 0, hypeCount := 0 }

/-- Store with one unreserved item. -/
def dbA : DB := { wishlists := [wlA], items := [itemA], contributions := [] }

/-- The same item already reserved by `alice@x`. -/
def itemB : Item :=
  { itemA with isReserved := true, reservedBy := some "alice@x" }

/-- Store with one item reserved by `alice@x`. -/
def dbB : DB := { wishlists := [wlA], items := [itemB], contributions := [] }

/-- A contribution of 30 by `Sam` toward `i1`. -/
def contribC : Contribution :=
  { id := 0, itemId := "i1", userId := none, contributorName := "Sam",
    amount := 30, message := some "good luck" }

/-- Store where `i1` is reserved and has a recorded contribution: the
state whose spoiler-filtered owner view must look untouched. -/
def dbC : DB := { wishlists := [wlA], items := [{ itemB with collectedAmount := 30 }],
                  contributions := [contribC] }

/-- A guest contribution request of 50 toward `i1` under nickname `Sam`. -/
def contribInputA : ContributionInput :=
  { itemId := "i1", amount := 50, message := none, nickname := some "Sam" }

/-- An authenticated contribution request of 10 toward `i1`. -/
def contribInputB : ContributionInput :=
  { itemId := "i1", amount := 10, message := none, nickname := none }

/-- The wishlist owner's auth payload. -/
def ownerU : UserPayload := { id := "owner1", email := "owner@x" }

/-- Some other authenticated user. -/
def otherU : UserPayload := { id := "u2", email := "lee@x" }

/-- Socket state: session 1 watches `w1`, session 2 watches `w2` only. -/
def ioA : IoState :=
  { connected := [1, 2], rooms := [("wishlist:w1", [1]), ("wishlist:w2", [2])] }

/-- Socket state with two connected sessions and no rooms yet. -/
def ioEmpty : IoState := { connected := [1, 2], rooms := [] }

/-- Socket state after sessions 1 and 2 joined `w`. -/
def ioBoth : IoState := { connected := [1, 2], rooms := [("wishlist:w", [1, 2])] }

/-! ### List lemmas -/

theorem find?_map_eq {α : Type} (g : α → α) (p : α → Bool)
    (hp : ∀ x, p (g x) = p x) :
    ∀ l : List α, (l.map g).find? p = (l.find? p).map g
  | [] => rfl
  | x :: t => by
    cases hx : p x
    · have hgx : p (g x) = false := by rw [hp, hx]
      simp only [List.map_cons, List.find?_cons, hx, hgx]
      exact find?_map_eq g p hp t
    · have hgx : p (g x) = true := by rw [hp, hx]
      simp only [List.map_cons, List.find?_cons, hx, hgx, Option.map_some']

theorem find?_append_of_none {α : Type} (p : α → Bool) :
    ∀ (l l' : List α), l.find? p = none → (l ++ l').find? p = l'.find? p
  | [], _, _ => rfl
  | x :: t, l', h => by
    cases hx : p x
    · simp only [List.find?_cons, hx] at h
      simp only [List.cons_append, List.find?_cons, hx]
      exact find?_append_of_none p t l' h
    · simp only [List.find?_cons, hx] at h
      exact Option.noConfusion h

theorem find?_filter_of_none {α : Type} (p q : α → Bool) :
    ∀ l : List α, l.find? p = none → (l.filter q).find? p = none
  | [], _ => rfl
  | x :: t, h => by
    cases hx : p x
    · simp only [List.find?_cons, hx] at h
      cases hq : q x
      · simp only [List.filter_cons, hq, if_neg]
        simpa using find?_filter_of_none p q t h
      · simp only [List.filter_cons, hq, if_pos, List.find?_cons, hx]
        simpa using find?_filter_of_none p q t h
    · simp only [List.find?_cons, hx] at h
      exact Option.noConfusion h

theorem find?_key_unique {α : Type} (key : α → String) (k : String) :
    ∀ (l : List α), (l.map key).Nodup →
      ∀ x, l.find? (fun a => key a == k) = some x →
        ∀ y ∈ l, key y = k → y = x
  | [], _, _, hx, _, hy, _ => by cases hy
  | a :: t, hn, x, hx, y, hy, hyk => by
    have hn' : (∀ b ∈ t, ¬key b = key a) ∧ (t.map key).Nodup := by simpa using hn
    cases ha : (key a == k)
    · rw [List.find?_cons_of_neg _ (by simp [ha])] at hx
      rcases List.mem_cons.mp hy with rfl | hyt
      · exact absurd hyk (by simpa using ha)
      · exact find?_key_unique key k t hn'.2 x hx y hyt hyk
    · rw [List.find?_cons_of_pos _ (by simp [ha])] at hx
      cases hx
      rcases List.mem_cons.mp hy with rfl | hyt
      · rfl
      · exact absurd (hyk.trans (eq_of_beq ha).symm) (hn'.1 y hyt)

theorem filter_key_and {α : Type} (key : α → String) (q : α → Bool) (k : String) :
    ∀ (l : List α), (l.map key).Nodup →
      ∀ x, l.find? (fun a => key a == k) = some x →
        l.filter (fun a => key a == k && q a) = if q x then [x] else []
  | [], _, x, hx => by cases hx
  | a :: t, hn, x, hx => by
    have hn' : (∀ b ∈ t, ¬key b = key a) ∧ (t.map key).Nodup := by simpa using hn
    cases ha : (key a == k)
    · rw [List.find?_cons_of_neg _ (by simp [ha])] at hx
      simp only [List.filter_cons, ha, Bool.false_and, if_neg]
      simpa using filter_key_and key q k t hn'.2 x hx
    · rw [List.find?_cons_of_pos _ (by simp [ha])] at hx
      cases hx
      have htail : t.filter (fun b => key b == k && q b) = [] := by
        rw [List.filter_eq_nil_iff]
        intro b hb hcontra
        have hbk : key b = k := eq_of_beq (Bool.and_elim_left hcontra)
        exact hn'.1 b hb (hbk.trans (eq_of_beq ha).symm)
      cases hq : q a
      · simp [List.filter_cons, ha, hq, htail]
      · simp [List.filter_cons, ha, hq, htail]

theorem updateManyItems_id (l : List Item) (p : Item → Bool) (f : Item → Item)
    (h : ∀ i ∈ l, p i = false) : updateManyItems l p f = l := by
  unfold updateManyItems
  have : l.map (fun i => if p i then f i else i) = l.map id :=
    List.map_congr_left (fun a ha => by simp [h a ha])
  simpa using this

theorem matchCount_eq_zero (l : List Item) (p : Item → Bool) :
    matchCount l p = 0 ↔ ∀ i ∈ l, p i = false := by
  unfold matchCount
  rw [List.length_eq_zero, List.filter_eq_nil_iff]
  simp

theorem matchCount_key (p q : Item → Bool) (k : String)
    (hpq : ∀ i, p i = (i.id == k && q i)) (l : List Item)
    (hn : (l.map Item.id).Nodup) (x : Item)
    (hx : l.find? (fun i => i.id == k) = some x) :
    matchCount l p = if q x then 1 else 0 := by
  unfold matchCount
  have hfc : l.filter p = l.filter (fun i => Item.id i == k && q i) :=
    List.filter_congr (fun a _ => hpq a)
  rw [hfc, filter_key_and Item.id q k l hn x hx]
  by_cases hq : q x = true
  · simp [hq]
  · simp [Bool.eq_false_iff.mpr hq]

theorem length_filter_ne_of_mem (a : SessionId) :
    ∀ l : List SessionId, l.Nodup → a ∈ l →
      (l.filter (fun s => s != a)).length + 1 = l.length
  | [], _, ha => by cases ha
  | x :: t, hn, ha => by
    have hn' := List.nodup_cons.mp hn
    rcases List.mem_cons.mp ha with rfl | hat
    · simp only [List.filter_cons, bne_self_eq_false, cond_false]
      have : t.filter (fun s => s != a) = t := by
        rw [List.filter_eq_self]
        intro b hb
        simp only [bne_iff_ne, ne_eq]
        intro hcontra
        exact hn'.1 (hcontra ▸ hb)
      rw [this]
      simp
    · have hxa : (x != a) = true := by
        simp only [bne_iff_ne, ne_eq]
        intro hcontra
        exact hn'.1 (hcontra ▸ hat)
      have IH := length_filter_ne_of_mem a t hn'.2 hat
      simp only [List.filter_cons, hxa, if_pos, List.length_cons]
      omega

/-! ### Reservation state machine lemmas -/

theorem reserveWrite_id_eq (label : String) (x : Item) :
    ((if reservePred itemId x then reserveWrite label x else x).id == itemId) =
      (x.id == itemId) := by
  by_cases h : reservePred itemId x = true <;> simp [h, reserveWrite]

theorem reserveItemRun_success (db : DB) (item : Item) (wl : Wishlist)
    (itemId label : String) (rid : Option String)
    (hids : (db.items.map Item.id).Nodup)
    (hfind : findItem db itemId = some item)
    (hwl : findWishlist db item.wishlistId = some wl)
    (hown : rid ≠ some wl.ownerId)
    (hunres : item.isReserved = false) :
    reserveItemRun db itemId label rid =
      ({ db with items := updateManyItems db.items (reservePred itemId) (reserveWrite label) },
       .ok (reserveWrite label item)) := by
  have hfind0 : db.items.find? (fun i => i.id == itemId) = some item := hfind
  have hqT : (item.isReserved == false) = true := by simp [hunres]
  have hcnt : matchCount db.items (reservePred itemId) = 1 := by
    simpa [hqT] using matchCount_key (reservePred itemId) (fun i => i.isReserved == false)
      itemId (fun _ => rfl) db.items hids item hfind0
  have hpos : reservePred itemId item = true := by
    simp [reservePred, List.find?_some hfind0, hqT]
  have hfind' : findItem
      { db with items := updateManyItems db.items (reservePred itemId) (reserveWrite label) }
      itemId = some (reserveWrite label item) := by
    show (updateManyItems db.items (reservePred itemId) (reserveWrite label)).find?
      (fun i => i.id == itemId) = _
    unfold updateManyItems
    rw [find?_map_eq _ _ (fun x => reserveWrite_id_eq label x) db.items, hfind0]
    simp only [Option.map_some']
    rw [if_pos hpos]
  simp only [reserveItemRun, hfind, hwl, if_neg hown, hcnt, hfind']
  norm_num

theorem reserveItemRun_conflict (db : DB) (item : Item) (wl : Wishlist)
    (itemId label : String) (rid : Option String)
    (hids : (db.items.map Item.id).Nodup)
    (hfind : findItem db itemId = some item)
    (hwl : findWishlist db item.wishlistId = some wl)
    (hown : rid ≠ some wl.ownerId)
    (hres : item.isReserved = true) :
    reserveItemRun db itemId label rid = (db, .error .alreadyReserved) := by
  have hfind0 : db.items.find? (fun i => i.id == itemId) = some item := hfind
  have hnone : ∀ i ∈ db.items, reservePred itemId i = false := by
    intro i hi
    by_cases hik : (i.id == itemId) = true
    · have heq : i = item :=
        find?_key_unique Item.id itemId db.items hids item hfind0 i hi (eq_of_beq hik)
      subst heq
      simp [reservePred, hres]
    · simp [reservePred, Bool.eq_false_iff.mpr hik]
  have hcnt : matchCount db.items (reservePred itemId) = 0 :=
    (matchCount_eq_zero _ _).mpr hnone
  have hupd : updateManyItems db.items (reservePred itemId) (reserveWrite label) = db.items :=
    updateManyItems_id _ _ _ hnone
  simp only [reserveItemRun, hfind, hwl, if_neg hown, hcnt, hupd]
  simp

theorem unreserveWrite_id_eq (itemId requester : String) (x : Item) :
    ((if unreservePred itemId requester x then unreserveWrite x else x).id == itemId) =
      (x.id == itemId) := by
  by_cases h : unreservePred itemId requester x = true <;> simp [h, unreserveWrite]

theorem unreserveItemRun_success (db : DB) (item : Item) (itemId requester : String)
    (hids : (db.items.map Item.id).Nodup)
    (hfind : findItem db itemId = some item)
    (hreq : requester ≠ "")
    (hhold : item.reservedBy = some requester)
    (hres : item.isReserved = true) :
    unreserveItemRun db itemId (some requester) =
      ({ db with items := updateManyItems db.items (unreservePred itemId requester) unreserveWrite },
       .ok (unreserveWrite item)) := by
  have hfind0 : db.items.find? (fun i => i.id == itemId) = some item := hfind
  have hqT : (item.reservedBy == some requester && item.isReserved == true) = true := by
    simp [hhold, hres]
  have hcnt : matchCount db.items (unreservePred itemId requester) = 1 := by
    simpa [hhold, hres] using matchCount_key (unreservePred itemId requester)
      (fun i => i.reservedBy == some requester && i.isReserved == true)
      itemId (fun _ => rfl) db.items hids item hfind0
  have hpos : unreservePred itemId requester item = true := by
    simp [unreservePred, List.find?_some hfind0, hhold, hres]
  have hfind' : findItem
      { db with items := updateManyItems db.items (unreservePred itemId requester) unreserveWrite }
      itemId = some (unreserveWrite item) := by
    show (updateManyItems db.items (unreservePred itemId requester) unreserveWrite).find?
      (fun i => i.id == itemId) = _
    unfold updateManyItems
    rw [find?_map_eq _ _ (fun x => unreserveWrite_id_eq itemId requester x) db.items, hfind0]
    simp only [Option.map_some']
    rw [if_pos hpos]
  simp only [unreserveItemRun, hfind, if_neg hreq, hcnt, hfind']
  norm_num

theorem unreserveItemRun_nomatch (db : DB) (item : Item) (itemId requester : String)
    (hids : (db.items.map Item.id).Nodup)
    (hfind : findItem db itemId = some item)
    (hreq : requester ≠ "")
    (hq : (item.reservedBy == some requester && item.isReserved == true) = false) :
    unreserveItemRun db itemId (some requester) = (db, .error .onlyReserverCanUnreserve) := by
  have hfind0 : db.items.find? (fun i => i.id == itemId) = some item := hfind
  have hnone : ∀ i ∈ db.items, unreservePred itemId requester i = false := by
    intro i hi
    by_cases hik : (i.id == itemId) = true
    · have heq : i = item :=
        find?_key_unique Item.id itemId db.items hids item hfind0 i hi (eq_of_beq hik)
      subst heq
      unfold unreservePred
      rw [hq, Bool.and_false]
    · simp [unreservePred, Bool.eq_false_iff.mpr hik]
  have hcnt : matchCount db.items (unreservePred itemId requester) = 0 :=
    (matchCount_eq_zero _ _).mpr hnone
  have hupd : updateManyItems db.items (unreservePred itemId requester) unreserveWrite
      = db.items := updateManyItems_id _ _ _ hnone
  simp only [unreserveItemRun, hfind, if_neg hreq, hcnt, hupd]
  simp

/-! ### Contribution ledger lemmas -/

theorem update_id_eq (p : Item → Bool) (f : Item → Item) (k : String)
    (hf : ∀ x, (f x).id = x.id) (x : Item) :
    ((if p x then f x else x).id == k) = (x.id == k) := by
  by_cases h : p x = true <;> simp [h, hf]

theorem find?_updateMany (l : List Item) (p : Item → Bool) (f : Item → Item) (k : String)
    (hf : ∀ x, (f x).id = x.id) :
    (updateManyItems l p f).find? (fun i => i.id == k) =
      (l.find? (fun i => i.id == k)).map (fun i => if p i then f i else i) := by
  unfold updateManyItems
  exact find?_map_eq _ _ (fun x => update_id_eq p f k hf x) l

theorem updateManyItems_invariant (l : List Item) (p : Item → Bool) (f : Item → Item)
    (hl : ∀ i ∈ l, itemInvariant i) (hf : ∀ i ∈ l, itemInvariant i → itemInvariant (f i)) :
    ∀ j ∈ updateManyItems l p f, itemInvariant j := by
  intro j hj
  rcases List.mem_map.mp hj with ⟨i, hi, rfl⟩
  by_cases hpi : p i = true
  · rw [if_pos hpi]
    exact hf i hi (hl i hi)
  · rw [if_neg hpi]
    exact hl i hi

theorem contributeBody_success (db : DB) (item : Item) (wl : Wishlist)
    (user : Option UserPayload) (data : ContributionInput) (name : String) (fid : Nat)
    (hfind : findItem db data.itemId = some item)
    (hwl : findWishlist db item.wishlistId = some wl)
    (hown : user.map (fun u => u.id) ≠ some wl.ownerId)
    (hunres : item.isReserved = false) :
    ∃ db' : DB,
      contributeBody db user data name fid =
        .ok (db', { contribution := newContribution user data name fid
                    wishlistId := item.wishlistId
                    itemId := item.id
                    newCollected := item.collectedAmount + data.amount
                    isFullyFunded := fundedFlag item data.amount }) ∧
      db'.contributions = db.contributions ++ [newContribution user data name fid] ∧
      db'.wishlists = db.wishlists ∧
      findItem db' data.itemId = some (contributedItem item data.amount) ∧
      (dbInvariant db → dbInvariant db') := by
  have hfind0 : db.items.find? (fun i => i.id == data.itemId) = some item := hfind
  have hbeq : (item.id == data.itemId) = true := by
    have h := List.find?_some hfind0
    exact h
  have hio : item.id = data.itemId := eq_of_beq hbeq
  have hfindSelf : db.items.find? (fun i => i.id == item.id) = some item := by
    rw [hio]; exact hfind0
  have hbumpid : ∀ x : Item,
      ({ x with collectedAmount := x.collectedAmount + data.amount } : Item).id = x.id :=
    fun _ => rfl
  have hfind2 := find?_updateMany db.items (fun i => i.id == item.id)
    (fun i => { i with collectedAmount := i.collectedAmount + data.amount }) item.id hbumpid
  rw [hfindSelf] at hfind2
  simp only [Option.map_some', beq_self_eq_true, if_pos] at hfind2
  have hfundid : ∀ x : Item,
      ({ x with isReserved := true, reservedBy := some "Group contribution" } : Item).id = x.id :=
    fun _ => rfl
  have hfind3 := find?_updateMany
    (updateManyItems db.items (fun i => i.id == item.id)
      (fun i => { i with collectedAmount := i.collectedAmount + data.amount }))
    (fun i => i.id == item.id)
    (fun i => { i with isReserved := true, reservedBy := some "Group contribution" })
    item.id hfundid
  rw [hfind2] at hfind3
  simp only [Option.map_some', beq_self_eq_true, if_pos] at hfind3
  have hfind2T : List.find? (fun i => i.id == item.id)
      (updateManyItems db.items (fun i => i.id == item.id)
        (fun i => { i with collectedAmount := i.collectedAmount + data.amount })) =
      some { item with collectedAmount := item.collectedAmount + data.amount } := hfind2
  cases hp : item.price with
  | none =>
    refine ⟨DB.mk db.wishlists
        (updateManyItems db.items (fun i => i.id == item.id)
          (fun i => { i with collectedAmount := i.collectedAmount + data.amount }))
        (db.contributions ++ [newContribution user data name fid]),
      ?_, rfl, rfl, ?_, ?_⟩
    · simp [contributeBody, hfind0, hwl, hown, hunres, hfind2T, newContribution, hp, fundedFlag,
        findItem]
    · show (updateManyItems _ _ _).find? (fun i => i.id == data.itemId) = _
      rw [← hio, hfind2T]
      simp [contributedItem, fundedFlag, hp]
    · intro hinv j hj
      exact updateManyItems_invariant db.items _ _ hinv
        (fun i _ hii => by simpa [itemInvariant] using hii) j hj
  | some p =>
    by_cases hle : p ≤ item.collectedAmount + data.amount
    · refine ⟨DB.mk db.wishlists
          (updateManyItems
            (updateManyItems db.items (fun i => i.id == item.id)
              (fun i => { i with collectedAmount := i.collectedAmount + data.amount }))
            (fun i => i.id == item.id)
            (fun i => { i with isReserved := true, reservedBy := some "Group contribution" }))
          (db.contributions ++ [newContribution user data name fid]),
        ?_, rfl, rfl, ?_, ?_⟩
      · simp [contributeBody, hfind0, hwl, hown, hunres, hfind2T, newContribution, hp, hle,
          fundedFlag, findItem]
      · show (updateManyItems _ _ _).find? (fun i => i.id == data.itemId) = _
        rw [← hio, hfind3]
        simp [contributedItem, fundedFlag, hp, hle]
      · intro hinv j hj
        refine updateManyItems_invariant _ _ _ ?_ (fun i _ _ => by simp [itemInvariant]) j hj
        exact fun j2 hj2 => updateManyItems_invariant db.items _ _ hinv
          (fun i _ hii => by simpa [itemInvariant] using hii) j2 hj2
    · refine ⟨DB.mk db.wishlists
          (updateManyItems db.items (fun i => i.id == item.id)
            (fun i => { i with collectedAmount := i.collectedAmount + data.amount }))
          (db.contributions ++ [newContribution user data name fid]),
        ?_, rfl, rfl, ?_, ?_⟩
      · simp [contributeBody, hfind0, hwl, hown, hunres, hfind2T, newContribution, hp, hle,
          fundedFlag, findItem]
      · show (updateManyItems _ _ _).find? (fun i => i.id == data.itemId) = _
        rw [← hio, hfind2T]
        simp [contributedItem, fundedFlag, hp, hle]
      · intro hinv j hj
        exact updateManyItems_invariant db.items _ _ hinv
          (fun i _ hii => by simpa [itemInvariant] using hii) j hj

theorem contributeRun_success (db : DB) (item : Item) (wl : Wishlist)
    (user : Option UserPayload) (data : ContributionInput) (name : String) (fid : Nat)
    (hfind : findItem db data.itemId = some item)
    (hwl : findWishlist db item.wishlistId = some wl)
    (hown : user.map (fun u => u.id) ≠ some wl.ownerId)
    (hunres : item.isReserved = false)
    (hamount : 0 < data.amount)
    (hname : jsOrStr (user.map (fun u => u.email)) data.nickname = some name)
    (hname' : name ≠ "") :
    ∃ db' : DB,
      contributeRun db user data fid =
        (db', .ok { contribution := newContribution user data name fid
                    wishlistId := item.wishlistId
                    itemId := item.id
                    newCollected := item.collectedAmount + data.amount
                    isFullyFunded := fundedFlag item data.amount }) ∧
      db'.contributions = db.contributions ++ [newContribution user data name fid] ∧
      db'.wishlists = db.wishlists ∧
      findItem db' data.itemId = some (contributedItem item data.amount) ∧
      (dbInvariant db → dbInvariant db') := by
  obtain ⟨db', hbody, hc, hw, hf, hinv⟩ :=
    contributeBody_success db item wl user data name fid hfind hwl hown hunres
  refine ⟨db', ?_, hc, hw, hf, hinv⟩
  simp [contributeRun, not_le.mpr hamount, hname, hname', hbody]

theorem contributeRun_reserved (db : DB) (item : Item) (wl : Wishlist)
    (user : Option UserPayload) (data : ContributionInput) (name : String) (fid : Nat)
    (hfind : findItem db data.itemId = some item)
    (hwl : findWishlist db item.wishlistId = some wl)
    (hown : user.map (fun u => u.id) ≠ some wl.ownerId)
    (hamount : 0 < data.amount)
    (hname : jsOrStr (user.map (fun u => u.email)) data.nickname = some name)
    (hname' : name ≠ "")
    (hres : item.isReserved = true) :
    contributeRun db user data fid = (db, .error .alreadyReservedFunded) := by
  have hbody : contributeBody db user data name fid = .error .alreadyReservedFunded := by
    simp [contributeBody, hfind, hwl, hown, hres]
  simp [contributeRun, not_le.mpr hamount, hname, hname', hbody]

/-! ### Failure leaves the store unchanged -/

theorem reserveItemRun_error_state (db : DB) (itemId label : String) (rid : Option String)
    (e : SvcError) :
    (reserveItemRun db itemId label rid).2 = .error e →
    (reserveItemRun db itemId label rid).1 = db := by
  cases hf0 : findItem db itemId with
  | none => simp [reserveItemRun, hf0]
  | some j =>
    cases hwl : findWishlist db j.wishlistId with
    | none => simp [reserveItemRun, hf0, hwl]
    | some wl =>
      by_cases hown : rid = some wl.ownerId
      · simp [reserveItemRun, hf0, hwl, hown]
      · by_cases hcnt : matchCount db.items (reservePred itemId) = 0
        · have hnone := (matchCount_eq_zero _ _).mp hcnt
          simp [reserveItemRun, hf0, hwl, hown, hcnt,
            updateManyItems_id db.items (reservePred itemId) (reserveWrite label) hnone]
        · have hmap := find?_updateMany db.items (reservePred itemId) (reserveWrite label)
            itemId (fun _ => rfl)
          rw [show db.items.find? (fun i => i.id == itemId) = some j from hf0] at hmap
          simp only [Option.map_some'] at hmap
          have hfind' : findItem { db with items := updateManyItems db.items (reservePred itemId) (reserveWrite label) } itemId = some (if reservePred itemId j then reserveWrite label j else j) := hmap
          simp [reserveItemRun, hf0, hwl, hown, hcnt, hfind']

theorem unreserveItemRun_error_state (db : DB) (itemId : String) (req : Option String)
    (e : SvcError) :
    (unreserveItemRun db itemId req).2 = .error e →
    (unreserveItemRun db itemId req).1 = db := by
  cases hf0 : findItem db itemId with
  | none => simp [unreserveItemRun, hf0]
  | some j =>
    cases req with
    | none => simp [unreserveItemRun, hf0]
    | some requester =>
      by_cases hreq : requester = ""
      · simp [unreserveItemRun, hf0, hreq]
      · by_cases hcnt : matchCount db.items (unreservePred itemId requester) = 0
        · have hnone := (matchCount_eq_zero _ _).mp hcnt
          simp [unreserveItemRun, hf0, hreq, hcnt,
            updateManyItems_id db.items (unreservePred itemId requester) unreserveWrite hnone]
        · have hmap := find?_updateMany db.items (unreservePred itemId requester)
            unreserveWrite itemId (fun _ => rfl)
          rw [show db.items.find? (fun i => i.id == itemId) = some j from hf0] at hmap
          simp only [Option.map_some'] at hmap
          have hfind' : findItem { db with items := updateManyItems db.items (unreservePred itemId requester) unreserveWrite } itemId = some (if unreservePred itemId requester j then unreserveWrite j else j) := hmap
          simp [unreserveItemRun, hf0, hreq, hcnt, hfind']

/-! ### Invariant preservation per operation -/

theorem reserveItemRun_invariant (db : DB) (itemId label : String) (rid : Option String)
    (h : dbInvariant db) : dbInvariant (reserveItemRun db itemId label rid).1 := by
  have hupd : dbInvariant { db with items := updateManyItems db.items (reservePred itemId) (reserveWrite label) } := by
    intro j hj
    exact updateManyItems_invariant db.items _ _ h
      (fun i _ _ => by simp [itemInvariant, reserveWrite]) j hj
  unfold reserveItemRun
  split
  · exact h
  · split
    · exact h
    · split
      · exact h
      · dsimp only
        split
        · exact hupd
        · split
          · exact hupd
          · exact hupd

theorem unreserveItemRun_invariant (db : DB) (itemId : String) (req : Option String)
    (h : dbInvariant db) : dbInvariant (unreserveItemRun db itemId req).1 := by
  unfold unreserveItemRun
  split
  · exact h
  · split
    · exact h
    · rename_i requester
      have hupd : dbInvariant { db with items := updateManyItems db.items (unreservePred itemId requester) unreserveWrite } := by
        intro j hj
        exact updateManyItems_invariant db.items _ _ h
          (fun i _ _ => by simp [itemInvariant, unreserveWrite]) j hj
      split
      · exact h
      · dsimp only
        split
        · exact hupd
        · split
          · exact hupd
          · exact hupd

theorem hypeItemRun_invariant (db : DB) (itemId : String)
    (h : dbInvariant db) : dbInvariant (hypeItemRun db itemId).1 := by
  have hupd : dbInvariant { db with items := updateManyItems db.items (fun i => i.id == itemId) (fun i => { i with hypeCount := i.hypeCount + 1 }) } := by
    intro j hj
    exact updateManyItems_invariant db.items _ _ h
      (fun i _ hii => by simpa [itemInvariant] using hii) j hj
  unfold hypeItemRun
  split
  · exact h
  · dsimp only
    split
    · exact hupd
    · exact hupd

theorem createItemRun_invariant (db : DB) (userId : String) (dto : CreateItemDTO)
    (freshId : String) (h : dbInvariant db) :
    dbInvariant (createItemRun db userId dto freshId).1 := by
  unfold createItemRun
  split
  · exact h
  · split
    · exact h
    · intro j hj
      rcases List.mem_append.mp hj with hj | hj
      · exact h j hj
      · have hje := List.mem_singleton.mp hj
        subst hje
        simp [itemInvariant, newItem]

theorem contributeBody_ok_invariant (db : DB) (user : Option UserPayload)
    (data : ContributionInput) (name : String) (fid : Nat) (db' : DB) (r : ContributionResult)
    (h : dbInvariant db)
    (heq : contributeBody db user data name fid = .ok (db', r)) :
    dbInvariant db' := by
  cases hf0 : findItem db data.itemId with
  | none => simp [contributeBody, hf0] at heq
  | some item =>
    cases hwl : findWishlist db item.wishlistId with
    | none => simp [contributeBody, hf0, hwl] at heq
    | some wl =>
      by_cases hown : user.map (fun u => u.id) = some wl.ownerId
      · simp [contributeBody, hf0, hwl, hown] at heq
      · by_cases hres : item.isReserved = true
        · simp [contributeBody, hf0, hwl, hown, hres] at heq
        · obtain ⟨db2, hbody, _, _, _, hinv⟩ :=
            contributeBody_success db item wl user data name fid hf0 hwl hown
              (Bool.eq_false_iff.mpr hres)
          rw [hbody] at heq
          injection heq with h1
          injection h1 with h2 h3
          exact h2 ▸ hinv h

theorem contributeRun_invariant (db : DB) (user : Option UserPayload)
    (data : ContributionInput) (fid : Nat) (h : dbInvariant db) :
    dbInvariant (contributeRun db user data fid).1 := by
  unfold contributeRun
  split
  · exact h
  · split
    · exact h
    · split
      · exact h
      · split
        · rename_i heq
          exact contributeBody_ok_invariant db user data _ fid _ _ h heq
        · exact h

theorem contributeRun_error_state (db : DB) (user : Option UserPayload)
    (data : ContributionInput) (fid : Nat) (e : SvcError) :
    (contributeRun db user data fid).2 = .error e →
    (contributeRun db user data fid).1 = db := by
  unfold contributeRun
  split
  · intro _; rfl
  · split
    · intro _; rfl
    · split
      · intro _; rfl
      · split
        · intro h
          exact absurd h (by simp)
        · intro _; rfl

/-! ### Presence tracker lemmas -/

theorem roomMembers_addToRoom (st : IoState) (room : String) (sid : SessionId) :
    roomMembers (addToRoom st room sid) room =
      if (roomMembers st room).contains sid then roomMembers st room
      else roomMembers st room ++ [sid] := by
  by_cases hc : (roomMembers st room).contains sid = true
  · rw [if_pos hc]
    unfold addToRoom
    rw [if_pos hc]
  · rw [if_neg hc]
    unfold addToRoom
    rw [if_neg hc]
    cases hf : st.rooms.find? (fun r => r.fst == room) with
    | some r =>
      simp only [hf]
      have hm : roomMembers st room = r.snd := by simp [roomMembers, hf]
      have hp : ∀ x : String × List SessionId,
          ((if x.fst == room then (x.fst, x.snd ++ [sid]) else x).fst == room) =
            (x.fst == room) := by
        intro x
        by_cases hx : (x.fst == room) = true <;> simp [hx]
      have hr : (r.fst == room) = true := by
        have h := List.find?_some hf
        exact h
      unfold roomMembers
      dsimp only
      rw [find?_map_eq _ _ hp st.rooms, hf]
      simp [eq_of_beq hr, hm]
    | none =>
      simp only [hf]
      have hm : roomMembers st room = [] := by simp [roomMembers, hf]
      unfold roomMembers
      dsimp only
      rw [find?_append_of_none _ _ _ hf]
      simp [hf]

theorem joinWishlistRun_count (st : IoState) (sid : SessionId) (wid : String) :
    (joinWishlistRun st sid wid).2 =
      ((roomMembers (joinWishlistRun st sid wid).1 ("wishlist:" ++ wid)).length : Int) := by
  have hadd := roomMembers_addToRoom st ("wishlist:" ++ wid) sid
  unfold joinWishlistRun
  dsimp only
  cases hf : (addToRoom st ("wishlist:" ++ wid) sid).rooms.find?
      (fun r => r.fst == "wishlist:" ++ wid) with
  | some r => simp [roomMembers, hf]
  | none =>
    exfalso
    have hmem : roomMembers (addToRoom st ("wishlist:" ++ wid) sid) ("wishlist:" ++ wid) = [] := by
      simp [roomMembers, hf]
    rw [hmem] at hadd
    by_cases hc : (roomMembers st ("wishlist:" ++ wid)).contains sid = true
    · rw [if_pos hc] at hadd
      rw [← hadd] at hc
      simp at hc
    · rw [if_neg hc] at hadd
      exact absurd hadd.symm (by simp)

theorem find?_remove_list (room : String) (sid : SessionId) :
    ∀ (rooms : List (String × List SessionId)), (rooms.map Prod.fst).Nodup →
      ((rooms.map (fun r => if r.fst == room then (r.fst, r.snd.filter (fun s => s != sid)) else r)).filter
          (fun r => !r.snd.isEmpty)).find? (fun r => r.fst == room) =
        match rooms.find? (fun r => r.fst == room) with
        | some r =>
          if (r.snd.filter (fun s => s != sid)).isEmpty then none
          else some (r.fst, r.snd.filter (fun s => s != sid))
        | none => none
  | [], _ => by simp
  | (k, ms) :: t, hn => by
    have hn0 : (∀ (x : List SessionId), (k, x) ∉ t) ∧ (t.map Prod.fst).Nodup := by simpa using hn
    have hn1 : ∀ b ∈ t, ¬(Prod.fst b = k) := by
      intro b hb hcontra
      cases b with
      | mk b1 b2 =>
        simp only at hcontra
        subst hcontra
        exact hn0.1 b2 hb
    have hn' : (∀ b ∈ t, ¬(Prod.fst b = k)) ∧ (t.map Prod.fst).Nodup := ⟨hn1, hn0.2⟩
    by_cases hk : (k == room) = true
    · have hkr : k = room := eq_of_beq hk
      have htail_find_none : t.find? (fun r => r.fst == room) = none := by
        rw [List.find?_eq_none]
        intro b hb
        have hb' : ¬(b.fst = room) := fun hcontra => hn'.1 b hb (by rw [hcontra, hkr])
        simp [hb']
      have htail_map : t.map
          (fun r => if r.fst == room then (r.fst, r.snd.filter (fun s => s != sid)) else r) = t := by
        have : ∀ b ∈ t, (if b.fst == room then (b.fst, b.snd.filter (fun s => s != sid)) else b) = b := by
          intro b hb
          have hb' : ¬(b.fst = room) := fun hcontra => hn'.1 b hb (by rw [hcontra, hkr])
          rw [if_neg (by simpa using hb')]
        calc t.map (fun r => if r.fst == room then (r.fst, r.snd.filter (fun s => s != sid)) else r)
            = t.map id := List.map_congr_left (fun b hb => by rw [this b hb]; rfl)
          _ = t := List.map_id t
      simp only [List.map_cons, htail_map, hk, if_pos]
      rw [List.find?_cons_of_pos _ (by simpa using hk)]
      by_cases he : ((ms.filter (fun s => s != sid)).isEmpty) = true
      · simp only [List.filter_cons, he]
        simp only [Bool.not_true, Bool.false_eq_true, if_false]
        rw [find?_filter_of_none _ _ t htail_find_none]
        simp [he]
      · have he' : (!(ms.filter (fun s => s != sid)).isEmpty) = true := by simp [he]
        simp only [List.filter_cons, he']
        rw [if_pos trivial]
        rw [List.find?_cons_of_pos _ (by simpa using hk)]
        simp [he]
    · simp only [List.map_cons]
      rw [if_neg hk]
      rw [List.find?_cons_of_neg _ (by simpa using hk)]
      by_cases he : ((k, ms).snd.isEmpty) = true
      · simp only [List.filter_cons, he]
        simp only [Bool.not_true, Bool.false_eq_true, if_false]
        exact find?_remove_list room sid t hn'.2
      · have he' : (!(k, ms).snd.isEmpty) = true := by simp [he]
        simp only [List.filter_cons, he']
        rw [if_pos trivial]
        rw [List.find?_cons_of_neg _ (by simpa using hk)]
        exact find?_remove_list room sid t hn'.2

theorem leaveWishlistRun_count (st : IoState) (sid : SessionId) (wid : String)
    (hn : (st.rooms.map Prod.fst).Nodup) :
    (leaveWishlistRun st sid wid).2 =
      (((roomMembers st ("wishlist:" ++ wid)).filter (fun s => s != sid)).length : Int) := by
  unfold leaveWishlistRun removeFromRoom
  dsimp only
  rw [find?_remove_list ("wishlist:" ++ wid) sid st.rooms hn]
  cases hf : st.rooms.find? (fun r => r.fst == "wishlist:" ++ wid) with
  | some r =>
    by_cases he : ((r.snd.filter (fun s => s != sid)).isEmpty) = true
    · have : r.snd.filter (fun s => s != sid) = [] := by simpa using he
      simp [roomMembers, hf, he, this]
    · simp [roomMembers, hf, he]
  | none => simp [roomMembers, hf]

theorem disconnectRun_counts (st : IoState) (sid : SessionId)
    (hmem : ∀ r ∈ st.rooms, r.snd.Nodup) :
    (disconnectRun st sid).2 =
      (st.rooms.filter (fun r => r.snd.contains sid && strStartsWith r.fst "wishlist:")).map
        (fun r => (r.fst, ((r.snd.filter (fun s => s != sid)).length : Int))) ∧
    ∀ q ∈ (disconnectRun st sid).2, 0 ≤ q.snd := by
  constructor
  · show disconnectingCounts st sid = _
    unfold disconnectingCounts
    apply List.map_congr_left
    intro r hr
    have hrmem := List.mem_filter.mp hr
    have hcont : r.snd.contains sid = true := Bool.and_elim_left hrmem.2
    have hin : sid ∈ r.snd := by simpa using hcont
    have hnod : r.snd.Nodup := hmem r hrmem.1
    have hlen := length_filter_ne_of_mem sid r.snd hnod hin
    rw [Prod.mk.injEq]
    exact ⟨rfl, by omega⟩
  · intro q hq
    have hq' : q ∈ disconnectingCounts st sid := hq
    unfold disconnectingCounts at hq'
    rcases List.mem_map.mp hq' with ⟨r, hr, rfl⟩
    have hrmem := List.mem_filter.mp hr
    have hcont : r.snd.contains sid = true := Bool.and_elim_left hrmem.2
    have hin : sid ∈ r.snd := by simpa using hcont
    have hpos : 1 ≤ r.snd.length := List.length_pos.mpr (List.ne_nil_of_mem hin)
    show (0 : Int) ≤ (r.snd.length : Int) - 1
    omega

/-! ### Claim theorems -/

/-- C1: for every `reserve(itemId, requesterIdentity, holderLabel)` call on
an existing item whose requester is not the wishlist owner, the operation is
the single conditional `updateMany` transition that sets `isReserved=true,
reservedBy=holderLabel` exactly when `isReserved` was `false`, and it fails
with the Conflict error `'Item is already reserved'`, leaving the store
unchanged, exactly when that conditional update matched zero rows, i.e. when
the item was already reserved. -/
theorem C1_reserve_atomic_conditional (db : DB) (item : Item) (wl : Wishlist)
    (itemId label : String) (rid : Option String)
    (hids : (db.items.map Item.id).Nodup)
    (hfind : findItem db itemId = some item)
    (hwl : findWishlist db item.wishlistId = some wl)
    (hown : rid ≠ some wl.ownerId) :
    (matchCount db.items (reservePred itemId) = 0 ↔ item.isReserved = true) ∧
    ((reserveItemRun db itemId label rid).2 = .error .alreadyReserved ↔
      item.isReserved = true) ∧
    (item.isReserved = true →
      reserveItemRun db itemId label rid = (db, .error .alreadyReserved)) ∧
    (item.isReserved = false →
      reserveItemRun db itemId label rid =
        ({ db with items := updateManyItems db.items (reservePred itemId) (reserveWrite label) },
         .ok (reserveWrite label item)) ∧
      (reserveWrite label item).isReserved = true ∧
      (reserveWrite label item).reservedBy = some label) := by
  have hfind0 : db.items.find? (fun i => i.id == itemId) = some item := hfind
  have hcnt := matchCount_key (reservePred itemId) (fun i => i.isReserved == false) itemId
    (fun _ => rfl) db.items hids item hfind0
  cases hres : item.isReserved with
  | false =>
    simp only [hres] at hcnt
    norm_num at hcnt
    have hsucc := reserveItemRun_success db item wl itemId label rid hids hfind hwl hown hres
    refine ⟨⟨fun h0 => by omega, fun h => by exact absurd h (by decide)⟩,
      ⟨fun herr => ?_, fun h => by exact absurd h (by decide)⟩,
      fun h => by exact absurd h (by decide),
      fun _ => ⟨hsucc, rfl, rfl⟩⟩
    rw [hsucc] at herr
    simp at herr
  | true =>
    simp only [hres] at hcnt
    norm_num at hcnt
    have hcnt0 : matchCount db.items (reservePred itemId) = 0 := hcnt
    have hconf := reserveItemRun_conflict db item wl itemId label rid hids hfind hwl hown hres
    refine ⟨by simp [hcnt0], ⟨fun _ => rfl, fun _ => by rw [hconf]⟩,
      fun _ => hconf, fun h => by exact absurd h (by decide)⟩

/-- Witness for C1: reserving the unreserved item `i1` succeeds with the
conditional write applied. -/
theorem C1_witness :
    reserveItemRun dbA "i1" "sam@x" none =
      ({ dbA with items := updateManyItems dbA.items (reservePred "i1") (reserveWrite "sam@x") },
       .ok (reserveWrite "sam@x" itemA)) :=
  ((C1_reserve_atomic_conditional dbA itemA wlA "i1" "sam@x" none (by decide) (by decide)
      (by decide) (by decide)).2.2.2 (by decide)).1

/-- C3: the invariant "`reservedBy` is non-null iff `isReserved`" is
preserved by reserve, unreserve, contribute, hype and item creation,
on both the success and the failure post-state. -/
theorem C3_reservedBy_iff_isReserved (db : DB) (h : dbInvariant db) :
    (∀ itemId label rid, dbInvariant (reserveItemRun db itemId label rid).1) ∧
    (∀ itemId req, dbInvariant (unreserveItemRun db itemId req).1) ∧
    (∀ user data fid, dbInvariant (contributeRun db user data fid).1) ∧
    (∀ itemId, dbInvariant (hypeItemRun db itemId).1) ∧
    (∀ userId dto freshId, dbInvariant (createItemRun db userId dto freshId).1) :=
  ⟨fun itemId label rid => reserveItemRun_invariant db itemId label rid h,
   fun itemId req => unreserveItemRun_invariant db itemId req h,
   fun user data fid => contributeRun_invariant db user data fid h,
   fun itemId => hypeItemRun_invariant db itemId h,
   fun userId dto freshId => createItemRun_invariant db userId dto freshId h⟩

/-- Witness for C3 at a concrete store and operation. -/
theorem C3_witness :
    dbInvariant dbA ∧ dbInvariant (reserveItemRun dbA "i1" "sam@x" none).1 :=
  ⟨by decide, (C3_reservedBy_iff_isReserved dbA (by decide)).1 "i1" "sam@x" none⟩

/-- C6: every failing reserve, unreserve or contribute call leaves the
stored item and contribution state exactly as it was before the call. -/
theorem C6_failure_leaves_state_unchanged :
    (∀ db itemId label rid e, (reserveItemRun db itemId label rid).2 = .error e →
      (reserveItemRun db itemId label rid).1 = db) ∧
    (∀ db itemId req e, (unreserveItemRun db itemId req).2 = .error e →
      (unreserveItemRun db itemId req).1 = db) ∧
    (∀ db user data fid e, (contributeRun db user data fid).2 = .error e →
      (contributeRun db user data fid).1 = db) :=
  ⟨fun db itemId label rid e h => reserveItemRun_error_state db itemId label rid e h,
   fun db itemId req e h => unreserveItemRun_error_state db itemId req e h,
   fun db user data fid e h => contributeRun_error_state db user data fid e h⟩

/-- Witness for C6: a conflicting reserve fails and leaves the store as it
was. -/
theorem C6_witness :
    (reserveItemRun dbB "i1" "sam@x" none).2 = .error .alreadyReserved ∧
    (reserveItemRun dbB "i1" "sam@x" none).1 = dbB :=
  ⟨by decide,
   C6_failure_leaves_state_unchanged.1 dbB "i1" "sam@x" none .alreadyReserved (by decide)⟩

/-- C2: every successful `contribute` call, as one transaction, appends
exactly one contribution row, increases `collectedAmount` by exactly the
amount (no clamping, also past the price), and — conditioned on
`isReserved` still being `false` — sets `isReserved=true,
reservedBy="Group contribution"` exactly when `price` is set and the new
total meets it; below the threshold, or with no price, the reservation
fields are untouched. -/
theorem C2_contribute_success_effects (db : DB) (item : Item) (wl : Wishlist)
    (user : Option UserPayload) (data : ContributionInput) (name : String) (fid : Nat)
    (hfind : findItem db data.itemId = some item)
    (hwl : findWishlist db item.wishlistId = some wl)
    (hown : user.map (fun u => u.id) ≠ some wl.ownerId)
    (hunres : item.isReserved = false)
    (hamount : 0 < data.amount)
    (hname : jsOrStr (user.map (fun u => u.email)) data.nickname = some name)
    (hname' : name ≠ "") :
    ∃ (db' : DB) (r : ContributionResult),
      contributeRun db user data fid = (db', .ok r) ∧
      db'.contributions = db.contributions ++ [r.contribution] ∧
      r.contribution.amount = data.amount ∧
      r.contribution.itemId = data.itemId ∧
      r.contribution.contributorName = name ∧
      r.newCollected = item.collectedAmount + data.amount ∧
      ∃ u : Item, findItem db' data.itemId = some u ∧
        u.collectedAmount = item.collectedAmount + data.amount ∧
        u.price = item.price ∧
        (∀ p : Int, item.price = some p → p ≤ item.collectedAmount + data.amount →
          u.isReserved = true ∧ u.reservedBy = some "Group contribution") ∧
        (∀ p : Int, item.price = some p → item.collectedAmount + data.amount < p →
          u.isReserved = false ∧ u.reservedBy = item.reservedBy) ∧
        (item.price = none → u.isReserved = false ∧ u.reservedBy = item.reservedBy) := by
  obtain ⟨db', hrun, hc, hw, hf, _⟩ :=
    contributeRun_success db item wl user data name fid hfind hwl hown hunres hamount
      hname hname'
  refine ⟨db', _, hrun, hc, rfl, rfl, rfl, rfl,
    contributedItem item data.amount, hf, ?_, ?_, ?_, ?_, ?_⟩
  · by_cases hflag : fundedFlag item data.amount = true <;> simp [contributedItem, hflag]
  · by_cases hflag : fundedFlag item data.amount = true <;> simp [contributedItem, hflag]
  · intro p hp hle
    have hflag : fundedFlag item data.amount = true := by simp [fundedFlag, hp, hle]
    simp [contributedItem, hflag]
  · intro p hp hlt
    have hflag : fundedFlag item data.amount = false := by
      simp only [fundedFlag, hp]
      simp only [decide_eq_false_iff_not]
      omega
    simp [contributedItem, hflag, hunres]
  · intro hp
    have hflag : fundedFlag item data.amount = false := by simp [fundedFlag, hp]
    simp [contributedItem, hflag, hunres]

/-- Witness for C2: a guest contribution of 50 on the 50-priced item. -/
theorem C2_witness :
    ∃ (db' : DB) (r : ContributionResult),
      contributeRun dbA none contribInputA 0 = (db', .ok r) ∧
      db'.contributions = dbA.contributions ++ [r.contribution] ∧
      r.newCollected = itemA.collectedAmount + contribInputA.amount := by
  obtain ⟨db', r, h1, h2, _, _, _, h6, _⟩ :=
    C2_contribute_success_effects dbA itemA wlA none contribInputA "Sam" 0 (by decide)
      (by decide) (by decide) (by decide) (by decide) (by decide) (by decide)
  exact ⟨db', r, h1, h2, h6⟩

/-- C5: a `contribute` call that passes validation, identity resolution and
the ownership check fails with the Conflict error
`'Item is already reserved/fully funded'` whenever `isReserved` is `true`,
creating no contribution row and leaving `collectedAmount` untouched. -/
theorem C5_contribute_conflict_on_reserved (db : DB) (item : Item) (wl : Wishlist)
    (user : Option UserPayload) (data : ContributionInput) (fid : Nat) (name : String)
    (hfind : findItem db data.itemId = some item)
    (hwl : findWishlist db item.wishlistId = some wl)
    (hown : user.map (fun u => u.id) ≠ some wl.ownerId)
    (hamount : 0 < data.amount)
    (hname : jsOrStr (user.map (fun u => u.email)) data.nickname = some name)
    (hname' : name ≠ "")
    (hres : item.isReserved = true) :
    contributeRun db user data fid = (db, .error .alreadyReservedFunded) ∧
    (contributeRun db user data fid).1.contributions = db.contributions ∧
    findItem (contributeRun db user data fid).1 data.itemId = some item := by
  have h := contributeRun_reserved db item wl user data name fid hfind hwl hown hamount
    hname hname' hres
  refine ⟨h, by rw [h], by rw [h]; exact hfind⟩

/-- Witness for C5: contributing to the already-reserved item fails with
the conflict error and changes nothing. -/
theorem C5_witness :
    contributeRun dbB (some otherU) contribInputB 0 = (dbB, .error .alreadyReservedFunded) :=
  (C5_contribute_conflict_on_reserved dbB itemB wlA (some otherU) contribInputB 0 "lee@x"
    (by decide) (by decide) (by decide) (by decide) (by decide) (by decide) (by decide)).1

/-- C4 counterexample: with `i1` reserved by `alice@x`, the wrong-holder
unreserve (`bob`) throws the very same error value as the missing-identity
case — `'Only the person who reserved can unreserve'`, mapped by the route
to HTTP 403 (Forbidden), not a distinct Conflict (409). -/
theorem C4_counterexample :
    (unreserveItemRun dbB "i1" (some "bob")).2 = .error .onlyReserverCanUnreserve ∧
    (unreserveItemRun dbB "i1" none).2 = .error .onlyReserverCanUnreserve ∧
    (unreserveItemRun dbB "i1" (some "bob")).2 = (unreserveItemRun dbB "i1" none).2 ∧
    unreserveRouteStatus .onlyReserverCanUnreserve = 403 ∧
    unreserveRouteStatus .onlyReserverCanUnreserve ≠ 409 := by
  refine ⟨by decide, by decide, by decide, rfl, by decide⟩

/-- C4 (amended): `unreserve` on an existing item fails with the single
error `'Only the person who reserved can unreserve'` (HTTP 403) both when
the requester identity is missing or empty and when the conditional update
(clear the reservation only if `isReserved` and `reservedBy =
requesterIdentity`) matched zero rows; on success it sets
`isReserved=false` and `reservedBy=null`. -/
theorem C4_unreserve_behavior (db : DB) (item : Item) (itemId : String) (req : Option String)
    (hids : (db.items.map Item.id).Nodup)
    (hfind : findItem db itemId = some item) :
    ((req = none ∨ req = some "") →
      unreserveItemRun db itemId req = (db, .error .onlyReserverCanUnreserve)) ∧
    (∀ r, req = some r → r ≠ "" →
      (matchCount db.items (unreservePred itemId r) = 0 ↔
        ¬(item.reservedBy = some r ∧ item.isReserved = true)) ∧
      (¬(item.reservedBy = some r ∧ item.isReserved = true) →
        unreserveItemRun db itemId req = (db, .error .onlyReserverCanUnreserve)) ∧
      (item.reservedBy = some r → item.isReserved = true →
        unreserveItemRun db itemId req =
          ({ db with items := updateManyItems db.items (unreservePred itemId r) unreserveWrite },
           .ok (unreserveWrite item)) ∧
        (unreserveWrite item).isReserved = false ∧
        (unreserveWrite item).reservedBy = none)) ∧
    unreserveRouteStatus .onlyReserverCanUnreserve = 403 := by
  have hfind0 : db.items.find? (fun i => i.id == itemId) = some item := hfind
  refine ⟨?_, ?_, rfl⟩
  · rintro (rfl | rfl)
    · simp [unreserveItemRun, hfind]
    · simp [unreserveItemRun, hfind]
  · rintro r rfl hr
    have hcnt := matchCount_key (unreservePred itemId r)
      (fun i => i.reservedBy == some r && i.isReserved == true) itemId
      (fun _ => rfl) db.items hids item hfind0
    by_cases hq : item.reservedBy = some r ∧ item.isReserved = true
    · have hqT : (item.reservedBy == some r && item.isReserved == true) = true := by
        simp [hq.1, hq.2]
      simp only [hqT] at hcnt
      norm_num at hcnt
      refine ⟨⟨fun h0 => by omega, fun hcon => absurd hq hcon⟩,
        fun hcon => absurd hq hcon, fun h1 h2 => ?_⟩
      exact ⟨unreserveItemRun_success db item itemId r hids hfind hr h1 h2, rfl, rfl⟩
    · have hqF : (item.reservedBy == some r && item.isReserved == true) = false := by
        by_cases h1 : item.reservedBy = some r
        · by_cases h2 : item.isReserved = true
          · exact absurd ⟨h1, h2⟩ hq
          · have h2' : item.isReserved = false := Bool.eq_false_iff.mpr h2
            simp [h2']
        · simp [h1]
      simp only [hqF] at hcnt
      norm_num at hcnt
      have hconf := unreserveItemRun_nomatch db item itemId r hids hfind hr hqF
      exact ⟨⟨fun _ => hq, fun _ => hcnt⟩, fun _ => hconf,
        fun h1 h2 => absurd ⟨h1, h2⟩ hq⟩

/-- Witness for C4: the rightful holder's unreserve clears the
reservation. -/
theorem C4_witness :
    unreserveItemRun dbB "i1" (some "alice@x") =
      ({ dbB with items := updateManyItems dbB.items (unreservePred "i1" "alice@x") unreserveWrite },
       .ok (unreserveWrite itemB)) :=
  (((C4_unreserve_behavior dbB itemB "i1" (some "alice@x") (by decide) (by decide)).2.1
      "alice@x" rfl (by decide)).2.2 (by decide) (by decide)).1

/-- C7: when the requester is the wishlist owner, the full-wishlist read
forces `isReserved=false`, `reservedBy=null`, `collectedAmount=0` and an
empty contribution list on every outgoing item, regardless of the stored
values; a non-owner read of a public wishlist exposes every stored item's
reservation fields, collected amount and full contribution list
unfiltered. -/
theorem C7_spoiler_filter (db : DB) (user : Option UserPayload) (wid : String) (wl : Wishlist)
    (hwl : findWishlist db wid = some wl) :
    (user.map (fun u => u.id) = some wl.ownerId →
      ∃ v : WishlistView, getWishlistRun db user wid = .ok v ∧ v.isOwner = true ∧
        ∀ it ∈ v.items, it.isReserved = false ∧ it.reservedBy = none ∧
          it.collectedAmount = 0 ∧ it.contributions = []) ∧
    (user.map (fun u => u.id) ≠ some wl.ownerId → wl.isPublic = true →
      getWishlistRun db user wid =
        .ok { wishlist := wl,
              items := (db.items.filter (fun i => i.wishlistId == wid)).map (itemView db),
              isOwner := false } ∧
      ∀ i ∈ db.items, i.wishlistId = wid →
        ∃ v ∈ (db.items.filter (fun i => i.wishlistId == wid)).map (itemView db),
          v.id = i.id ∧ v.isReserved = i.isReserved ∧ v.reservedBy = i.reservedBy ∧
          v.collectedAmount = i.collectedAmount ∧
          v.contributions =
            (db.contributions.filter (fun c => c.itemId == i.id)).map contributionView) := by
  constructor
  · intro howner
    have hbool : (user.map (fun u => u.id) == some wl.ownerId) = true := by simp [howner]
    refine ⟨WishlistView.mk wl
        (((db.items.filter (fun i => i.wishlistId == wid)).map (itemView db)).map spoilerFilter)
        true, ?_, rfl, ?_⟩
    · simp [getWishlistRun, hwl, hbool]
    · intro it hit
      rcases List.mem_map.mp hit with ⟨x, _, rfl⟩
      exact ⟨rfl, rfl, rfl, rfl⟩
  · intro hnot hpub
    have hbool : (user.map (fun u => u.id) == some wl.ownerId) = false := by
      simp only [beq_eq_false_iff_ne, ne_eq]
      exact hnot
    constructor
    · simp [getWishlistRun, hwl, hbool, hpub]
    · intro i hi hiw
      exact ⟨itemView db i,
        List.mem_map_of_mem _ (List.mem_filter.mpr ⟨hi, by simp [hiw]⟩),
        rfl, rfl, rfl, rfl, rfl⟩

/-- Witness for C7: the owner view of a store with a reserved, partly
funded item shows it untouched. -/
theorem C7_witness :
    ∃ v : WishlistView, getWishlistRun dbC (some ownerU) "w1" = .ok v ∧ v.isOwner = true ∧
      ∀ it ∈ v.items, it.isReserved = false ∧ it.reservedBy = none ∧
        it.collectedAmount = 0 ∧ it.contributions = [] :=
  (C7_spoiler_filter dbC (some ownerU) "w1" wlA (by decide)).1 (by decide)

/-- C8 counterexample: session 2 is subscribed only to `w2`'s room, yet the
`ItemReserved` publish for `w1` — an `io.emit` process-wide broadcast in
`ItemService.reserveItem` — delivers the event to it, so delivery is not
restricted to the wishlist's channel. -/
theorem C8_counterexample :
    (2, DomainEvent.itemReserved "w1" "i1" "sam@x") ∈ reservePublish ioA "w1" "i1" "sam@x" ∧
    (2 : SessionId) ∉ roomMembers ioA "wishlist:w1" := by
  decide

/-- C8 (amended): `ContributionAdded` and `HypeIncremented` are delivered
exactly to the sessions in the wishlist's room, while `ItemAdded`,
`ItemDeleted`, `ItemReserved` and `ItemUnreserved` are broadcast to every
connected session process-wide. -/
theorem C8_event_delivery_scope (st : IoState) (wid itemId rb : String)
    (nc : Int) (ff : Bool) (cnt : Nat) (sid : SessionId) :
    ((sid, DomainEvent.contributionAdded wid itemId nc ff) ∈
        contributionPublish st wid itemId nc ff ↔ sid ∈ roomMembers st ("wishlist:" ++ wid)) ∧
    ((sid, DomainEvent.hypeIncremented itemId cnt) ∈ hypePublish st wid itemId cnt ↔
      sid ∈ roomMembers st ("wishlist:" ++ wid)) ∧
    ((sid, DomainEvent.itemReserved wid itemId rb) ∈ reservePublish st wid itemId rb ↔
      sid ∈ st.connected) ∧
    ((sid, DomainEvent.itemUnreserved wid itemId) ∈ unreservePublish st wid itemId ↔
      sid ∈ st.connected) ∧
    ((sid, DomainEvent.itemAdded wid itemId) ∈ itemAddedPublish st wid itemId ↔
      sid ∈ st.connected) ∧
    ((sid, DomainEvent.itemDeleted wid itemId) ∈ itemDeletedPublish st wid itemId ↔
      sid ∈ st.connected) := by
  refine ⟨?_, ?_, ?_, ?_, ?_, ?_⟩ <;>
    simp [contributionPublish, hypePublish, reservePublish, unreservePublish,
      itemAddedPublish, itemDeletedPublish, emitToRoom, emitAll, List.mem_map]

/-- C9: presence counts follow room membership exactly: join emits the room
size after adding the session; leave emits the size after removal;
disconnect emits, for each wishlist room the session was in, the size
excluding the disconnecting session, and that count is never negative; the
sequence "1 joins, 2 joins, 1 disconnects" emits 1, 2, 1. -/
theorem C9_presence_counts :
    (∀ (st : IoState) (sid : SessionId) (wid : String),
      (joinWishlistRun st sid wid).2 =
        ((roomMembers (joinWishlistRun st sid wid).1 ("wishlist:" ++ wid)).length : Int)) ∧
    (∀ (st : IoState) (sid : SessionId) (wid : String), (st.rooms.map Prod.fst).Nodup →
      (leaveWishlistRun st sid wid).2 =
        (((roomMembers st ("wishlist:" ++ wid)).filter (fun s => s != sid)).length : Int)) ∧
    (∀ (st : IoState) (sid : SessionId), (∀ r ∈ st.rooms, r.snd.Nodup) →
      (disconnectRun st sid).2 =
        (st.rooms.filter (fun r => r.snd.contains sid && strStartsWith r.fst "wishlist:")).map
          (fun r => (r.fst, ((r.snd.filter (fun s => s != sid)).length : Int))) ∧
      ∀ q ∈ (disconnectRun st sid).2, 0 ≤ q.snd) ∧
    ((joinWishlistRun ioEmpty 1 "w").2 = 1 ∧
     (joinWishlistRun (joinWishlistRun ioEmpty 1 "w").1 2 "w").2 = 2 ∧
     (disconnectRun (joinWishlistRun (joinWishlistRun ioEmpty 1 "w").1 2 "w").1 1).2 =
       [("wishlist:w", 1)]) :=
  ⟨joinWishlistRun_count,
   fun st sid wid hn => leaveWishlistRun_count st sid wid hn,
   fun st sid hm => disconnectRun_counts st sid hm,
   by decide, by decide, by decide⟩

/-- Witness for C9: leaving the two-member room emits 1. -/
theorem C9_witness :
    (leaveWishlistRun ioBoth 1 "w").2 =
      (((roomMembers ioBoth ("wishlist:" ++ "w")).filter (fun s => s != 1)).length : Int) :=
  C9_presence_counts.2.1 ioBoth 1 "w" (by decide)

/-- C10 (implicit): the Forbidden owner check in reserve and contribute
compares only `req.user?.id` with the wishlist's `ownerId`, never the guest
nickname: an unauthenticated request can never fail the owner check, and a
logged-out wishlist owner can reserve or contribute to their own item under
a nickname. -/
theorem C10_owner_check_only_auth_id :
    (∀ (db : DB) (itemId label : String),
      (reserveItemRun db itemId label none).2 ≠ .error .cannotReserveOwn) ∧
    (∀ (db : DB) (data : ContributionInput) (fid : Nat),
      (contributeRun db none data fid).2 ≠ .error .cannotContributeOwn) ∧
    (∀ (db : DB) (item : Item) (wl : Wishlist) (itemId nickname : String),
      (db.items.map Item.id).Nodup →
      findItem db itemId = some item → findWishlist db item.wishlistId = some wl →
      item.isReserved = false →
      (reserveItemRun db itemId nickname none).2 = .ok (reserveWrite nickname item)) ∧
    (∀ (db : DB) (item : Item) (wl : Wishlist) (data : ContributionInput)
        (fid : Nat) (nickname : String),
      findItem db data.itemId = some item → findWishlist db item.wishlistId = some wl →
      item.isReserved = false → 0 < data.amount →
      data.nickname = some nickname → nickname ≠ "" →
      ∃ db' r, contributeRun db none data fid = (db', .ok r)) := by
  refine ⟨?_, ?_, ?_, ?_⟩
  · intro db itemId label
    cases hf : findItem db itemId with
    | none => simp [reserveItemRun, hf]
    | some j =>
      cases hw : findWishlist db j.wishlistId with
      | none => simp [reserveItemRun, hf, hw]
      | some wl =>
        by_cases hcnt : matchCount db.items (reservePred itemId) = 0
        · simp [reserveItemRun, hf, hw, hcnt]
        · cases hfind' : findItem { db with items := updateManyItems db.items (reservePred itemId) (reserveWrite label) } itemId with
          | none => simp [reserveItemRun, hf, hw, hcnt, hfind']
          | some u => simp [reserveItemRun, hf, hw, hcnt, hfind']
  · intro db data fid hcon
    by_cases ha : data.amount ≤ 0
    · simp [contributeRun, ha] at hcon
    · cases hnick : data.nickname with
      | none =>
        have hjs : jsOrStr none data.nickname = none := by simp [jsOrStr, hnick]
        simp [contributeRun, ha, hjs] at hcon
      | some nick =>
        have hjs : jsOrStr none data.nickname = some nick := by simp [jsOrStr, hnick]
        by_cases hne : nick = ""
        · simp [contributeRun, ha, hjs, hne] at hcon
        · have hbody : contributeBody db none data nick fid ≠ .error .cannotContributeOwn := by
            cases hf : findItem db data.itemId with
            | none => simp [contributeBody, hf]
            | some j =>
              cases hw : findWishlist db j.wishlistId with
              | none => simp [contributeBody, hf, hw]
              | some wl =>
                by_cases hres : j.isReserved = true
                · simp [contributeBody, hf, hw, hres]
                · obtain ⟨db2, hb, _, _, _, _⟩ :=
                    contributeBody_success db j wl none data nick fid hf hw (by simp)
                      (Bool.eq_false_iff.mpr hres)
                  rw [hb]
                  simp
          cases hb : contributeBody db none data nick fid with
          | ok pr =>
            obtain ⟨db2, r2⟩ := pr
            simp [contributeRun, ha, hjs, hne, hb] at hcon
          | error e =>
            rw [hb] at hbody
            simp [contributeRun, ha, hjs, hne, hb] at hcon
            exact hbody (by rw [hcon])
  · intro db item wl itemId nickname hids hf hw hres
    rw [reserveItemRun_success db item wl itemId nickname none hids hf hw (by simp) hres]
  · intro db item wl data fid nickname hf hw hres hamt hnick hne
    have hname : jsOrStr (Option.map (fun u => u.email) (none : Option UserPayload))
        data.nickname = some nickname := by simp [jsOrStr, hnick]
    obtain ⟨db', hrun, _, _, _, _⟩ :=
      contributeRun_success db item wl none data nickname fid hf hw (by simp) hres hamt
        hname hne
    exact ⟨db', _, hrun⟩

/-- Witness for C10: the logged-out owner reserves their own item under a
nickname. -/
theorem C10_witness :
    (reserveItemRun dbA "i1" "owner-nick" none).2 = .ok (reserveWrite "owner-nick" itemA) :=
  C10_owner_check_only_auth_id.2.2.1 dbA itemA wlA "i1" "owner-nick" (by decide) (by decide)
    (by decide) (by decide)

end Giftly